import Mathlib

/-!
Verification model of the worktree sandbox lifecycle code of this repository:
the files openhands/runtime/impl/worktree/worktree_runtime.py
(WorktreeRuntime) and openhands/app_server/sandbox/worktree_sandbox_service.py
(WorktreeSandboxService).

The stateful Python code is embedded as explicit state passing.  The
filesystem is abstracted as the list of existing workspace directories, the
OS process table as the list of live pids, and the in-memory registry
(the module-level dict named _worktrees) as an association list from sandbox
id to WorktreeInfo.  Outcomes of external effects (TCP bind attempts, HTTP
probes of the liveness endpoint, OS process-liveness checks, subprocess
launches) are supplied as oracles: functions from the attempt index or the
pid to an outcome, or booleans selecting the outcome of a single step.
Time is abstracted to retry-attempt counts: each polling loop is modelled
with a fuel equal to its attempt budget (timeout divided by the polling
interval), and each bounded OS wait is recorded as an explicit action
carrying its bound.
-/

namespace Worktree

/-- Remove every occurrence of an element from a list.  Used on the directory
list to model shutil.rmtree plus git worktree remove (after the call the path
is gone), and on the process table to model process termination. -/
def removeEvery {α : Type} [DecidableEq α] (x : α) : List α → List α
  | [] => []
  | y :: ys => if y = x then removeEvery x ys else y :: removeEvery x ys

/-- Add a path to the directory list unless it is already present.  Models
os.makedirs with the flag exist_ok set. -/
def addPath (p : String) (l : List String) : List String :=
  if p ∈ l then l else p :: l

/-- Modelled from the spec: the sandbox status enumeration of
sandbox_models.py, which is not under src/.  The spec lists the statuses
STARTING, RUNNING, PAUSED, STOPPED/DELETED and ERROR. -/
inductive SandboxStatus : Type
  | starting
  | running
  | paused
  | stopped
  | error
deriving DecidableEq, Repr

/-- Outcome of asking the OS whether a pid is alive, as surfaced by psutil in
_get_sandbox_status: the psutil.Process constructor plus is_running either
reports the process running (alive), reports it not running (dead), raises
NoSuchProcess, or raises AccessDenied (liveness unknown). -/
inductive ProcCheck : Type
  | alive
  | dead
  | noSuchProcess
  | accessDenied
deriving DecidableEq, Repr

/-- Embedding of the pydantic model WorktreeInfo of
worktree_sandbox_service.py (its model_config declares it frozen; here it is
an ordinary immutable structure).  The created_at timestamp is abstracted to
a Nat. -/
structure WorktreeInfo : Type where
  pid : Nat
  port : Nat
  worktree_path : String
  user_id : Option String
  session_api_key : String
  created_at : Nat
  sandbox_spec_id : String
deriving DecidableEq, Repr

/-- Modelled from the spec: SandboxInfo together with its ExposedUrl list
(sandbox_models.py is not under src/).  An exposed url is a pair of the url
string and the port.  The service never stores a SandboxInfo; it builds one
per query. -/
structure SandboxInfo : Type where
  id : String
  status : SandboxStatus
  created_at : Nat
  user_id : Option String
  sandbox_spec_id : String
  exposed_urls : List (String × Nat)
deriving DecidableEq, Repr

/-- The observable state the service acts on: the registry dict _worktrees,
the set of existing workspace directories, and the set of live pids. -/
structure SvcState : Type where
  worktrees : List (String × WorktreeInfo)
  dirs : List String
  alive : List Nat
deriving DecidableEq, Repr

/-- The SandboxError values raised by WorktreeSandboxService, distinguished
by their message: sandbox spec not found (start_sandbox), no available ports
(_find_unused_port), worktree process failed / failed to start a worktree
process (_start_worktree_process), and worktree sandbox failed to start
(start_sandbox after the readiness wait). -/
inductive SvcError : Type
  | specNotFound
  | noAvailablePorts
  | processFailed
  | startupFailed
deriving DecidableEq, Repr

/-- Dictionary lookup in the registry association list. -/
def lookupId (sid : String) : List (String × WorktreeInfo) → Option WorktreeInfo
  | [] => none
  | kv :: rest => if kv.1 = sid then some kv.2 else lookupId sid rest

/-- Dictionary key deletion in the registry association list. -/
def eraseId (sid : String) : List (String × WorktreeInfo) → List (String × WorktreeInfo)
  | [] => []
  | kv :: rest => if kv.1 = sid then eraseId sid rest else kv :: eraseId sid rest

/-- Dictionary key assignment in the registry association list. -/
def insertId (sid : String) (info : WorktreeInfo)
    (l : List (String × WorktreeInfo)) : List (String × WorktreeInfo) :=
  (sid, info) :: eraseId sid l

/-- The scan width of _find_unused_port: the while loop runs while
port < base_port + 10000. -/
def portScanRange : Nat := 10000

/-- The scanning loop of _find_unused_port.  The oracle free tells whether
binding a TCP socket to a port succeeds.  Each iteration tries to bind the
candidate; on success the port is returned, on OSError the candidate is
incremented.  When the fuel (remaining candidates) runs out the
no-available-ports SandboxError is raised. -/
def scanPorts (free : Nat → Bool) : Nat → Nat → Except SvcError Nat
  | _, 0 => .error .noAvailablePorts
  | p, fuel + 1 => if free p then .ok p else scanPorts free (p + 1) fuel

/-- Embedding of WorktreeSandboxService._find_unused_port. -/
def findUnusedPort (free : Nat → Bool) (basePort : Nat) : Except SvcError Nat :=
  scanPorts free basePort portScanRange

/-- Embedding of WorktreeSandboxService._get_sandbox_status.  The try block
returns RUNNING when psutil reports the process running; the except clause
catches NoSuchProcess and AccessDenied and falls through, so every outcome
other than alive reaches the final return of STOPPED. -/
def getSandboxStatus (check : Nat → ProcCheck) (info : WorktreeInfo) : SandboxStatus :=
  match check info.pid with
  | .alive => .running
  | _ => .stopped

def urlHost : String := "http://localhost:"

/-- The exposed url string built by _worktree_to_sandbox_info. -/
def urlOf (port : Nat) : String := urlHost ++ toString port

/-- The SandboxInfo built by list_sandboxes and get_sandbox (no exposed
urls); the status is recomputed from OS process liveness on every call. -/
def sandboxInfoOf (check : Nat → ProcCheck) (sid : String) (info : WorktreeInfo) : SandboxInfo :=
  { id := sid
    status := getSandboxStatus check info
    created_at := info.created_at
    user_id := info.user_id
    sandbox_spec_id := info.sandbox_spec_id
    exposed_urls := [] }

/-- The SandboxInfo built by _worktree_to_sandbox_info (with the exposed
agent-server url). -/
def sandboxInfoFull (check : Nat → ProcCheck) (sid : String) (info : WorktreeInfo) : SandboxInfo :=
  { sandboxInfoOf check sid info with exposed_urls := [(urlOf info.port, info.port)] }

/-- Embedding of WorktreeSandboxService.list_sandboxes: builds one
SandboxInfo per registry entry and touches no state. -/
def listSandboxes (check : Nat → ProcCheck) (st : SvcState) : List SandboxInfo × SvcState :=
  (st.worktrees.map (fun kv => sandboxInfoOf check kv.1 kv.2), st)

/-- Embedding of WorktreeSandboxService.get_sandbox. -/
def getSandbox (check : Nat → ProcCheck) (sid : String) (st : SvcState) :
    Option SandboxInfo × SvcState :=
  match lookupId sid st.worktrees with
  | none => (none, st)
  | some info => (some (sandboxInfoOf check sid info), st)

/-- The scan of find_sandbox_by_session_api_key over the registry, returning
the id of the first record carrying the key. -/
def findKeyIn (key : String) : List (String × WorktreeInfo) → Option String
  | [] => none
  | kv :: rest => if kv.2.session_api_key = key then some kv.1 else findKeyIn key rest

/-- Embedding of WorktreeSandboxService.find_sandbox_by_session_api_key,
which delegates to get_sandbox on a hit. -/
def findBySessionKey (check : Nat → ProcCheck) (key : String) (st : SvcState) :
    Option SandboxInfo × SvcState :=
  match findKeyIn key st.worktrees with
  | none => (none, st)
  | some sid => getSandbox check sid st

/-- The attempt budget of _wait_for_server_ready: overall timeout 30 with a
1 unit sleep between probes; a failed probe (connection refused against a
dead server) returns immediately, so the loop makes 30 attempts. -/
def serverReadyTimeout : Nat := 30

/-- The polling loop of _wait_for_server_ready.  The oracle probe gives the
outcome of the GET request on the liveness endpoint at each attempt index:
none models a raised exception (connection refused, connect or read
timeout), some c a response with HTTP status c.  Only status 200 ends the
loop with success; every other outcome falls through to the sleep and the
next attempt.  Returns the result together with the number of attempts
made. -/
def waitForServerReadyGo (probe : Nat → Option Nat) : Nat → Nat → Bool × Nat
  | attempt, 0 => (false, attempt)
  | attempt, fuel + 1 =>
    if probe attempt = some 200 then (true, attempt + 1)
    else waitForServerReadyGo probe (attempt + 1) fuel

/-- Embedding of WorktreeSandboxService._wait_for_server_ready with its
default 30 unit budget.  Note that the loop never consults the liveness of
the worker process. -/
def waitForServerReady (probe : Nat → Option Nat) : Bool × Nat :=
  waitForServerReadyGo probe 0 serverReadyTimeout

/-- The workspace directory path os.path.join(base_working_dir, sandbox_id)
used by _create_worktree_directory. -/
def slashStr : String := "/"

def dirFor (baseDir sid : String) : String := baseDir ++ slashStr ++ sid

/-- Embedding of WorktreeSandboxService.delete_sandbox.  An absent id
returns True at once.  Otherwise the process is terminated (terminate, wait
5, on timeout kill, wait 2 - the process is dead afterwards), the workspace
directory tree is removed if it exists, the registry entry is deleted, and
True is returned. -/
def delete_sandbox (sid : String) (st : SvcState) : Bool × SvcState :=
  match lookupId sid st.worktrees with
  | none => (true, st)
  | some info =>
      (true,
        { worktrees := eraseId sid st.worktrees
          dirs := removeEvery info.worktree_path st.dirs
          alive := removeEvery info.pid st.alive })

/-- Embedding of WorktreeSandboxService.pause_sandbox: worktree sandboxes do
not support pause, so it returns False unconditionally and touches no
state. -/
def pauseSandbox (sid : String) (st : SvcState) : Bool × SvcState := (false, st)

/-- Embedding of WorktreeSandboxService.resume_sandbox: returns False
unconditionally and touches no state. -/
def resumeSandbox (sid : String) (st : SvcState) : Bool × SvcState := (false, st)

/-- The WorktreeInfo record stored by start_sandbox. -/
def mkInfo (baseDir sid specId key : String) (uid : Option String)
    (now newPid port : Nat) : WorktreeInfo :=
  { pid := newPid
    port := port
    worktree_path := dirFor baseDir sid
    user_id := uid
    session_api_key := key
    created_at := now
    sandbox_spec_id := specId }

/-- The service state after start_sandbox has created the workspace
directory, launched the worker process and stored the registry record. -/
def startedState (baseDir sid specId key : String) (uid : Option String)
    (now newPid port : Nat) (st : SvcState) : SvcState :=
  { worktrees := insertId sid (mkInfo baseDir sid specId key uid now newPid port) st.worktrees
    dirs := addPath (dirFor baseDir sid) st.dirs
    alive := newPid :: st.alive }

/-- Embedding of WorktreeSandboxService.start_sandbox.  Steps in source
order: sandbox-spec lookup (specFound), port allocation (_find_unused_port
over the free oracle), workspace directory creation
(_create_worktree_directory: makedirs with exist_ok plus git init and
config, all with check set to False, so this step cannot raise), process
launch (_start_worktree_process: launchOk is False when Popen raises or the
process has already exited at the 2 second check - in both cases no live
process results and the raised SandboxError propagates with no cleanup),
registry assignment, then the readiness wait; when the wait reports failure
start_sandbox awaits delete_sandbox and raises.  The check oracle feeds the
status recomputation of the returned SandboxInfo. -/
def start_sandbox (check : Nat → ProcCheck) (free : Nat → Bool)
    (probe : Nat → Option Nat) (specFound launchOk : Bool) (baseDir : String)
    (basePort newPid : Nat) (sid specId key : String) (uid : Option String)
    (now : Nat) (st : SvcState) : Except SvcError SandboxInfo × SvcState :=
  if specFound = false then (.error .specNotFound, st)
  else
    match findUnusedPort free basePort with
    | .error e => (.error e, st)
    | .ok port =>
      if launchOk = false then
        (.error .processFailed, { st with dirs := addPath (dirFor baseDir sid) st.dirs })
      else
        if (waitForServerReady probe).1 then
          (.ok (sandboxInfoFull check sid (mkInfo baseDir sid specId key uid now newPid port)),
            startedState baseDir sid specId key uid now newPid port st)
        else
          (.error .startupFailed,
            (delete_sandbox sid (startedState baseDir sid specId key uid now newPid port st)).2)

/-- The error values raised inside WorktreeRuntime: AgentRuntimeError from
provisioning (_init_base_repository or _create_worktree) and from a failed
server launch, AgentRuntimeDisconnectedError from wait_until_alive,
an HTTP status error escaping wait_until_alive because it is not in the
tenacity retry list, and the last connection error reraised by tenacity
when the retry budget runs out. -/
inductive RtError : Type
  | provisioning
  | launch
  | disconnected
  | statusErr
  | connGaveUp
deriving DecidableEq, Repr

/-- Modelled from the spec: the outcome of one liveness probe issued by
check_if_alive (ActionExecutionClient, not under src/).  Per the spec the
worker exposes GET /alive returning 200 when ready; a connection-level
failure (refused, connect timeout) raises a connection error, and a non-2xx
response surfaces as an HTTP status error distinct from the connection
errors. -/
inductive Probe : Type
  | ok2xx
  | connErr
  | statusNon2xx
deriving DecidableEq, Repr

/-- The observable state a WorktreeRuntime instance acts on: its
worktree_path and _server_info attributes (the latter abstracted to the pid
of the launched process), the directory set and the process table. -/
structure RtState : Type where
  worktreePath : Option String
  serverPid : Option Nat
  dirs : List String
  alive : List Nat
deriving DecidableEq, Repr

/-- The worktree path os.path.join(worktree_base, worktree_name) computed by
_create_worktree. -/
def wtPathOf (base name : String) : String := base ++ slashStr ++ name

/-- Embedding of WorktreeRuntime._remove_worktree acting on the directory
list.  The method returns at once unless self.worktree_path is set and the
path exists; otherwise git worktree remove plus shutil.rmtree delete the
tree.  The argument selfWt is the value of self.worktree_path at call
time. -/
def removeWorktreePath (selfWt : Option String) (dirs : List String) : List String :=
  match selfWt with
  | none => dirs
  | some p => if p ∈ dirs then removeEvery p dirs else dirs

/-- The directory list after the stale-worktree check at the top of
_create_worktree: when the computed worktree path already exists the method
calls self._remove_worktree(), which consults self.worktree_path (selfWt),
not the computed path. -/
def dirsAfterStaleCheck (selfWt : Option String) (p : String) (dirs : List String) : List String :=
  if p ∈ dirs then removeWorktreePath selfWt dirs else dirs

/-- Embedding of WorktreeRuntime._create_worktree.  A directory present in
the list stands for a stale, non-empty worktree directory left by a previous
run.  After the stale check, git worktree add with the detach flag fails if
the target path still exists (error branch one) or if git itself fails
(gitOk false; the base-repository initialisation failing is folded into the
same flag, as both raise AgentRuntimeError before any directory is
created).  After a successful add, the two git config calls run with check
set to True inside the worktree; configOk false models their failure, which
raises after the directory was created.  The pair returned is the raised
error or the created path, together with the directory list. -/
def createWorktree (gitOk configOk : Bool) (selfWt : Option String)
    (base name : String) (dirs : List String) : Except RtError String × List String :=
  if wtPathOf base name ∈ dirsAfterStaleCheck selfWt (wtPathOf base name) dirs then
    (.error .provisioning, dirsAfterStaleCheck selfWt (wtPathOf base name) dirs)
  else if gitOk = false then
    (.error .provisioning, dirsAfterStaleCheck selfWt (wtPathOf base name) dirs)
  else if configOk = false then
    (.error .provisioning, wtPathOf base name :: dirsAfterStaleCheck selfWt (wtPathOf base name) dirs)
  else
    (.ok (wtPathOf base name), wtPathOf base name :: dirsAfterStaleCheck selfWt (wtPathOf base name) dirs)

/-- Embedding of WorktreeRuntime._stop_server acting on the state: a no-op
when _server_info is None, otherwise the process is terminated (dead
afterwards) and _server_info is cleared. -/
def stopServer (st : RtState) : RtState :=
  match st.serverPid with
  | none => st
  | some pid => { st with serverPid := none, alive := removeEvery pid st.alive }

/-- Embedding of WorktreeRuntime._remove_worktree acting on the state: the
directory is removed when self.worktree_path is set and exists;
self.worktree_path itself is left assigned (the method never clears it). -/
def removeWorktreeRt (st : RtState) : RtState :=
  match st.worktreePath with
  | none => st
  | some p => if p ∈ st.dirs then { st with dirs := removeEvery p st.dirs } else st

/-- The attempt budget of the tenacity decorator on wait_until_alive:
stop_after_delay 120 with wait_fixed 2 allows attempts at times 0, 2, ...,
120, hence 61 attempts. -/
def waitMaxAttempts : Nat := 61

/-- The retry loop of wait_until_alive under its tenacity decorator.  Each
attempt first raises AgentRuntimeDisconnectedError when _server_info is None
or when poll reports the process exited; neither error type is in the retry
list, so it propagates at once.  Otherwise check_if_alive probes the
liveness endpoint: success returns, a connection-level error is in the retry
list (retry on remaining fuel, reraise when the stop condition has been
reached), and an HTTP status error from a non-2xx response is not in the
retry list, so it propagates at once.  Returns the result together with the
number of attempts made. -/
def waitUntilAliveGo (serverStarted : Bool) (poll : Nat → Option Int)
    (probe : Nat → Probe) : Nat → Nat → Except RtError Unit × Nat
  | attempt, 0 => (.error .connGaveUp, attempt)
  | attempt, fuel + 1 =>
    if serverStarted = false then (.error .disconnected, attempt + 1)
    else if (poll attempt).isSome then (.error .disconnected, attempt + 1)
    else
      match probe attempt with
      | .ok2xx => (.ok (), attempt + 1)
      | .statusNon2xx => (.error .statusErr, attempt + 1)
      | .connErr => waitUntilAliveGo serverStarted poll probe (attempt + 1) fuel

/-- Embedding of WorktreeRuntime.wait_until_alive with its full tenacity
budget. -/
def waitUntilAlive (serverStarted : Bool) (poll : Nat → Option Int)
    (probe : Nat → Probe) : Except RtError Unit × Nat :=
  waitUntilAliveGo serverStarted poll probe 0 waitMaxAttempts

/-- The runtime state after connect has created the worktree and started the
server process. -/
def startedRt (pid : Nat) (p : String) (dirs1 : List String) (st : RtState) : RtState :=
  { worktreePath := some p, serverPid := some pid, dirs := dirs1, alive := pid :: st.alive }

/-- Embedding of WorktreeRuntime.connect.  Steps in source order: create the
worktree (assigning self.worktree_path only on success), start the server
(_start_server: launchOk is False when Popen raises, in which case no
process was created), then wait_until_alive.  Any raise is caught by the
except clause, which runs _stop_server then _remove_worktree on the state
reached at the failure point and reraises. -/
def connect (gitOk configOk launchOk : Bool) (poll : Nat → Option Int)
    (probe : Nat → Probe) (base name : String) (pid : Nat) (st : RtState) :
    Except RtError Unit × RtState :=
  match createWorktree gitOk configOk st.worktreePath base name st.dirs with
  | (.error e, dirs1) =>
      (.error e, removeWorktreeRt (stopServer { st with dirs := dirs1 }))
  | (.ok p, dirs1) =>
      if launchOk = false then
        (.error .launch,
          removeWorktreeRt (stopServer { st with worktreePath := some p, dirs := dirs1 }))
      else
        match (waitUntilAlive true poll probe).1 with
        | .ok _ => (.ok (), startedRt pid p dirs1 st)
        | .error e => (.error e, removeWorktreeRt (stopServer (startedRt pid p dirs1 st)))

/-- The observable actions of the two process-termination routines, with the
bound carried by each wait. -/
inductive StopAction : Type
  | setExitEvent
  | terminate
  | waitTimeout (t : Nat)
  | kill
  | waitNoTimeout
  | joinLog (t : Nat)
deriving DecidableEq, Repr

/-- The action trace of WorktreeRuntime._stop_server.  serverStarted is
whether _server_info is set (else the method returns at once), running is
whether poll() reports the process still alive, graceExit is whether the
process exits within the 5 unit graceful wait.  When it does not, the
process is killed and waited on with no timeout argument, then the log
thread is joined with a 2 unit bound. -/
def stopServerTrace (serverStarted running graceExit : Bool) : List StopAction :=
  if serverStarted = false then []
  else
    [StopAction.setExitEvent] ++
      (if running = false then []
       else if graceExit then [StopAction.terminate, StopAction.waitTimeout 5]
       else [StopAction.terminate, StopAction.waitTimeout 5, StopAction.kill,
             StopAction.waitNoTimeout]) ++
      [StopAction.joinLog 2]

/-- The action trace of the process-termination section of
WorktreeSandboxService.delete_sandbox: terminate, wait bounded by 5, and on
timeout kill then wait bounded by 2; a NoSuchProcess outcome (processExists
false) skips the whole section. -/
def deleteKillTrace (processExists graceExit : Bool) : List StopAction :=
  if processExists = false then []
  else if graceExit then [StopAction.terminate, StopAction.waitTimeout 5]
  else [StopAction.terminate, StopAction.waitTimeout 5, StopAction.kill,
        StopAction.waitTimeout 2]

/-- Concrete strings for witness and counterexample instances. -/
def demoBase : String := "/w"

def demoNameA : String := "wt-s1"

def demoPathA : String := "/w/wt-s1"

def sidA : String := "sb1"

def sidB : String := "sb9"

def sidZ : String := "zz"

def specA : String := "spec1"

def keyA : String := "k1"

def keyB : String := "k9"

def pathA : String := "/w/sb1"

def pathB : String := "/w/sb9"

/-- A concrete registry record for witness instances. -/
def demoInfo : WorktreeInfo :=
  { pid := 321
    port := 8300
    worktree_path := pathB
    user_id := none
    session_api_key := keyB
    created_at := 5
    sandbox_spec_id := specA }

/-- A concrete service state holding one running sandbox. -/
def demoSt : SvcState :=
  { worktrees := [(sidB, demoInfo)], dirs := [pathB], alive := [321] }

/-- The empty service state. -/
def emptySvc : SvcState := { worktrees := [], dirs := [], alive := [] }

/-- A fresh runtime state: nothing provisioned, nothing started. -/
def freshRt : RtState := { worktreePath := none, serverPid := none, dirs := [], alive := [] }

/-- Membership in removeEvery: exactly the other elements survive. -/
theorem mem_removeEvery {α : Type} [DecidableEq α] (x a : α) :
    ∀ l : List α, a ∈ removeEvery x l ↔ a ∈ l ∧ a ≠ x
  | [] => by simp [removeEvery]
  | y :: ys => by
    rw [removeEvery]
    by_cases h : y = x
    · subst h
      rw [if_pos rfl, mem_removeEvery y a ys]
      simp only [List.mem_cons]
      constructor
      · rintro ⟨ha, hne⟩
        exact ⟨Or.inr ha, hne⟩
      · rintro ⟨rfl | ha, hne⟩
        · exact absurd rfl hne
        · exact ⟨ha, hne⟩
    · rw [if_neg h]
      simp only [List.mem_cons, mem_removeEvery x a ys]
      constructor
      · rintro (rfl | ⟨ha, hne⟩)
        · exact ⟨Or.inl rfl, h⟩
        · exact ⟨Or.inr ha, hne⟩
      · rintro ⟨rfl | ha, hne⟩
        · exact Or.inl rfl
        · exact Or.inr ⟨ha, hne⟩

/-- An element never survives its own removal. -/
theorem not_mem_removeEvery_self {α : Type} [DecidableEq α] (x : α) (l : List α) :
    x ∉ removeEvery x l := by
  rw [mem_removeEvery]
  rintro ⟨-, h⟩
  exact h rfl

/-- The added path is in the result of addPath. -/
theorem mem_addPath (p : String) (l : List String) : p ∈ addPath p l := by
  unfold addPath
  split
  · assumption
  · exact List.mem_cons_self p l

/-- Looking up a key just erased yields nothing. -/
theorem lookupId_eraseId (sid : String) :
    ∀ l, lookupId sid (eraseId sid l) = none
  | [] => rfl
  | kv :: rest => by
    by_cases h : kv.1 = sid
    · simpa [eraseId, if_pos h] using lookupId_eraseId sid rest
    · simpa [eraseId, lookupId, if_neg h] using lookupId_eraseId sid rest

/-- Looking up a key just inserted yields the inserted record. -/
theorem lookupId_insertId (sid : String) (info : WorktreeInfo)
    (l : List (String × WorktreeInfo)) :
    lookupId sid (insertId sid info l) = some info := by
  simp [insertId, lookupId]

/-- Correctness of the port scan on success: the port returned lies in the
scanned window, binds successfully, and is the first candidate that does. -/
theorem scanPorts_ok (free : Nat → Bool) :
    ∀ (fuel p q : Nat), scanPorts free p fuel = .ok q →
      p ≤ q ∧ q < p + fuel ∧ free q = true ∧ ∀ r, p ≤ r → r < q → free r = false
  | 0, p, q => by simp [scanPorts]
  | fuel + 1, p, q => by
    intro hok
    rw [scanPorts] at hok
    by_cases h : free p
    · rw [if_pos h] at hok
      injection hok with hpq
      subst hpq
      exact ⟨le_refl p, by omega, h, fun r h1 h2 => absurd h1 (by omega)⟩
    · rw [if_neg h] at hok
      have ih := scanPorts_ok free fuel (p + 1) q hok
      have hfp : free p = false := by
        revert h; cases free p <;> simp
      refine ⟨by omega, by omega, ih.2.2.1, ?_⟩
      intro r h1 h2
      rcases Nat.lt_or_ge r (p + 1) with hr | hr
      · have : r = p := by omega
        subst this; exact hfp
      · exact ih.2.2.2 r hr h2

/-- Correctness of the port scan on exhaustion: when no candidate in the
window binds, the scan raises the no-available-ports error. -/
theorem scanPorts_exhausted (free : Nat → Bool) :
    ∀ (fuel p : Nat), (∀ q, p ≤ q → q < p + fuel → free q = false) →
      scanPorts free p fuel = .error .noAvailablePorts
  | 0, p, _ => rfl
  | fuel + 1, p, h => by
    have hp : free p = false := h p (le_refl p) (by omega)
    rw [scanPorts, hp]
    simp only [Bool.false_eq_true, if_false]
    exact scanPorts_exhausted free fuel (p + 1) (fun q h1 h2 => h q (by omega) (by omega))

/-- When the probe never returns status 200, the readiness loop runs through
its whole fuel and reports failure. -/
theorem waitForServerReadyGo_no200 (probe : Nat → Option Nat)
    (h : ∀ i, probe i ≠ some 200) :
    ∀ (fuel attempt : Nat), waitForServerReadyGo probe attempt fuel = (false, attempt + fuel)
  | 0, attempt => rfl
  | fuel + 1, attempt => by
    rw [waitForServerReadyGo, if_neg (h attempt)]
    rw [waitForServerReadyGo_no200 probe h fuel (attempt + 1)]
    congr 1
    omega

/-- Claim C5: WorktreeSandboxService._find_unused_port either returns a port
no smaller than the base port and within the 10000-wide scan window above
it, namely the first candidate that binds successfully when scanning
sequentially from the base port, or raises the no-available-ports
SandboxError when no port in the window is free; it never returns a port
outside the window. -/
theorem find_unused_port_range_correct :
    (∀ (free : Nat → Bool) (basePort port : Nat),
      findUnusedPort free basePort = .ok port →
      basePort ≤ port ∧ port < basePort + portScanRange ∧ free port = true ∧
        ∀ q, basePort ≤ q → q < port → free q = false) ∧
    (∀ (free : Nat → Bool) (basePort : Nat),
      (∀ q, basePort ≤ q → q < basePort + portScanRange → free q = false) →
      findUnusedPort free basePort = .error .noAvailablePorts) := by
  constructor
  · intro free basePort port hok
    exact scanPorts_ok free portScanRange basePort port hok
  · intro free basePort h
    exact scanPorts_exhausted free portScanRange basePort h

/-- Witness for find_unused_port_range_correct: a scan whose first candidate
is free returns it with the range bounds, and a scan over fully occupied
ports raises the no-available-ports error. -/
theorem find_unused_port_range_correct_witness :
    (8000 ≤ 8000 ∧ 8000 < 8000 + portScanRange ∧ (fun p => p == 8000) 8000 = true ∧
      ∀ q, 8000 ≤ q → q < 8000 → (fun p => p == 8000) q = false) ∧
    findUnusedPort (fun _ => false) 9000 = .error .noAvailablePorts :=
  ⟨find_unused_port_range_correct.1 (fun p => p == 8000) 8000 8000 rfl,
    find_unused_port_range_correct.2 (fun _ => false) 9000 (fun _ _ _ => rfl)⟩

/-- Claim C10: pause_sandbox and resume_sandbox return False for every
sandbox id and every registry state, and modify neither the registry, the
process table, nor the directory set. -/
theorem pause_resume_unsupported :
    ∀ (sid : String) (st : SvcState),
      pauseSandbox sid st = (false, st) ∧ resumeSandbox sid st = (false, st) :=
  fun _ _ => ⟨rfl, rfl⟩

/-- Counterexample to claim C7: a status query whose OS liveness check is
denied permission (AccessDenied) reports STOPPED, which is a different
status value from ERROR, so the Unknown outcome is not surfaced via ERROR as
the claim states. -/
theorem access_denied_reported_stopped :
    getSandboxStatus (fun _ => ProcCheck.accessDenied) demoInfo = SandboxStatus.stopped ∧
    (SandboxStatus.stopped == SandboxStatus.error) = false :=
  ⟨rfl, rfl⟩

/-- Claim C7 as amended: the status query never raises and reports only
RUNNING or STOPPED: a process the OS reports alive is RUNNING, and every
other liveness outcome - not running, NoSuchProcess, and equally the
permission-denied AccessDenied - is reported as STOPPED, with the
Unknown outcome handled identically to a dead process rather than
distinctly. -/
theorem status_query_amended :
    (∀ (check : Nat → ProcCheck) (info : WorktreeInfo),
      getSandboxStatus check info = SandboxStatus.running ∨
        getSandboxStatus check info = SandboxStatus.stopped) ∧
    (∀ info, getSandboxStatus (fun _ => ProcCheck.alive) info = SandboxStatus.running) ∧
    (∀ info, getSandboxStatus (fun _ => ProcCheck.dead) info = SandboxStatus.stopped) ∧
    (∀ info, getSandboxStatus (fun _ => ProcCheck.noSuchProcess) info = SandboxStatus.stopped) ∧
    (∀ info, getSandboxStatus (fun _ => ProcCheck.accessDenied) info = SandboxStatus.stopped) := by
  refine ⟨?_, fun _ => rfl, fun _ => rfl, fun _ => rfl, fun _ => rfl⟩
  intro check info
  unfold getSandboxStatus
  cases check info.pid
  · exact Or.inl rfl
  · exact Or.inr rfl
  · exact Or.inr rfl
  · exact Or.inr rfl

/-- Counterexample to claim C4: when the process survives the graceful
5-unit wait, WorktreeRuntime._stop_server kills it and then waits with no
timeout bound at all, so the forced-kill wait is not bounded by 2 units as
the claim states. -/
theorem stop_server_unbounded_second_wait :
    StopAction.waitNoTimeout ∈ stopServerTrace true true false := by decide

/-- Claim C4 as amended: WorktreeSandboxService.delete_sandbox terminates
with the two-phase bounded wait exactly as claimed (graceful wait bounded by
5, then kill and a wait bounded by 2); WorktreeRuntime._stop_server sends
the same graceful termination with a 5-unit bound, but after the forced kill
it waits with no timeout bound, and it always joins the log thread with a
2-unit bound. -/
theorem stop_two_phase_amended :
    deleteKillTrace true true = [StopAction.terminate, StopAction.waitTimeout 5] ∧
    deleteKillTrace true false =
      [StopAction.terminate, StopAction.waitTimeout 5, StopAction.kill,
        StopAction.waitTimeout 2] ∧
    (∀ g, deleteKillTrace false g = []) ∧
    stopServerTrace true true true =
      [StopAction.setExitEvent, StopAction.terminate, StopAction.waitTimeout 5,
        StopAction.joinLog 2] ∧
    stopServerTrace true true false =
      [StopAction.setExitEvent, StopAction.terminate, StopAction.waitTimeout 5,
        StopAction.kill, StopAction.waitNoTimeout, StopAction.joinLog 2] ∧
    (∀ g, stopServerTrace true false g = [StopAction.setExitEvent, StopAction.joinLog 2]) ∧
    (∀ r g, stopServerTrace false r g = []) :=
  ⟨rfl, rfl, fun _ => rfl, rfl, rfl, fun _ => rfl, fun _ _ => rfl⟩

/-- Claim C3, shown to be a bug in the code: on a fresh runtime instance
(self.worktree_path is None, as it is during the first connect) whose target
worktree path is occupied by a stale directory from a previous run,
_create_worktree logs that it removes the stale directory but actually calls
_remove_worktree, which returns at once because self.worktree_path is None;
the stale directory survives and the subsequent git worktree add fails, so
creation raises instead of succeeding.  The second conjunct shows the
removal does work when self.worktree_path happens to point at the same path
(the guard, not the removal itself, is the slip). -/
theorem stale_worktree_removal_noop_bug :
    createWorktree true true none demoBase demoNameA [demoPathA] =
      (Except.error RtError.provisioning, [demoPathA]) ∧
    createWorktree true true (some demoPathA) demoBase demoNameA [demoPathA] =
      (Except.ok demoPathA, [demoPathA]) := by
  constructor <;> rfl

/-- One unfolding step of the wait_until_alive retry loop. -/
theorem waitUntilAliveGo_step (serverStarted : Bool) (poll : Nat → Option Int)
    (probe : Nat → Probe) (attempt fuel : Nat) :
    waitUntilAliveGo serverStarted poll probe attempt (fuel + 1) =
      if serverStarted = false then (.error .disconnected, attempt + 1)
      else if (poll attempt).isSome then (.error .disconnected, attempt + 1)
      else
        match probe attempt with
        | .ok2xx => (.ok (), attempt + 1)
        | .statusNon2xx => (.error .statusErr, attempt + 1)
        | .connErr => waitUntilAliveGo serverStarted poll probe (attempt + 1) fuel := rfl

/-- Counterexample to claim C2: against a process that has already exited,
every probe of _wait_for_server_ready raises connection refused (none), and
the wait neither fails immediately nor with a distinct Disconnected error:
it makes all 30 attempts of the timeout budget and then reports plain
failure. -/
theorem service_ready_wait_dead_process_full_budget :
    waitForServerReady (fun _ => none) = (false, 30) := rfl

/-- Claim C2 as amended: WorktreeRuntime.wait_until_alive does fail on the
very first attempt with AgentRuntimeDisconnectedError when the process has
already exited, regardless of the probe outcomes; but
WorktreeSandboxService._wait_for_server_ready never consults process
liveness, so against a dead process (every probe raises) it retries until
the whole 30-unit budget elapses and then reports failure, which
start_sandbox surfaces as a generic startup SandboxError rather than a
distinct Disconnected error. -/
theorem dead_process_wait_amended :
    (∀ (poll : Nat → Option Int) (probe : Nat → Probe) (c : Int),
      poll 0 = some c →
      waitUntilAlive true poll probe = (Except.error RtError.disconnected, 1)) ∧
    (∀ probe : Nat → Option Nat, (∀ i, probe i = none) →
      waitForServerReady probe = (false, serverReadyTimeout)) := by
  constructor
  · intro poll probe c h
    have h1 : waitUntilAlive true poll probe
        = waitUntilAliveGo true poll probe 0 (60 + 1) := rfl
    rw [h1, waitUntilAliveGo_step]
    simp [h]
  · intro probe h
    have h200 : ∀ i, probe i ≠ some 200 := by
      intro i hc
      rw [h i] at hc
      cases hc
    have h2 : waitForServerReady probe
        = waitForServerReadyGo probe 0 serverReadyTimeout := rfl
    rw [h2, waitForServerReadyGo_no200 probe h200]
    simp

/-- Witness for dead_process_wait_amended: a process that exited before the
first probe makes the runtime wait fail with Disconnected after one attempt,
and makes the service wait spend its full budget. -/
theorem dead_process_wait_amended_witness :
    waitUntilAlive true (fun _ => some 1) (fun _ => Probe.connErr) =
      (Except.error RtError.disconnected, 1) ∧
    waitForServerReady (fun _ => none) = (false, serverReadyTimeout) :=
  ⟨dead_process_wait_amended.1 (fun _ => some 1) (fun _ => Probe.connErr) 1 rfl,
    dead_process_wait_amended.2 (fun _ => none) (fun _ => rfl)⟩

/-- Counterexample to claim C8: during a readiness wait on a live process, a
probe that yields a non-2xx HTTP status makes wait_until_alive abort on the
first attempt with the status error (the tenacity decorator retries only
connection-level failures), instead of retrying at the configured interval
until the 61-attempt budget is exhausted and then failing with Timeout. -/
theorem wait_until_alive_non2xx_aborts :
    waitUntilAlive true (fun _ => none) (fun _ => Probe.statusNon2xx) =
      (Except.error RtError.statusErr, 1) ∧
    1 < waitMaxAttempts :=
  ⟨rfl, by decide⟩

/-- Claim C8 as amended: in WorktreeSandboxService._wait_for_server_ready
every probe outcome other than status 200 - in particular every non-2xx
status - is treated as not yet ready and retried at the configured interval
until the 30-unit budget is exhausted, after which the wait reports failure;
in WorktreeRuntime.wait_until_alive only connection-level failures are
retried, and a non-2xx probe outcome on a live process aborts the wait
immediately with the status error. -/
theorem ready_probe_retry_amended :
    (∀ probe : Nat → Option Nat,
      (∀ i s, probe i = some s → 200 ≤ s → s < 300 → False) →
      waitForServerReady probe = (false, serverReadyTimeout)) ∧
    (∀ (poll : Nat → Option Int) (probe : Nat → Probe),
      poll 0 = none → probe 0 = Probe.statusNon2xx →
      waitUntilAlive true poll probe = (Except.error RtError.statusErr, 1)) := by
  constructor
  · intro probe h
    have h200 : ∀ i, probe i ≠ some 200 := fun i hc => h i 200 hc (by omega) (by omega)
    have h2 : waitForServerReady probe
        = waitForServerReadyGo probe 0 serverReadyTimeout := rfl
    rw [h2, waitForServerReadyGo_no200 probe h200]
    simp
  · intro poll probe hp hpr
    have h1 : waitUntilAlive true poll probe
        = waitUntilAliveGo true poll probe 0 (60 + 1) := rfl
    rw [h1, waitUntilAliveGo_step]
    simp [hp, hpr]

/-- Witness for ready_probe_retry_amended: a probe that always answers
status 500 exhausts the service budget, and a first-probe non-2xx aborts the
runtime wait after one attempt. -/
theorem ready_probe_retry_amended_witness :
    waitForServerReady (fun _ => some 500) = (false, serverReadyTimeout) ∧
    waitUntilAlive true (fun _ => none) (fun _ => Probe.statusNon2xx) =
      (Except.error RtError.statusErr, 1) :=
  ⟨ready_probe_retry_amended.1 (fun _ => some 500)
      (fun _ s hc h1 h2 => by injection hc with hc; omega),
    ready_probe_retry_amended.2 (fun _ => none) (fun _ => Probe.statusNon2xx) rfl rfl⟩

/-- Claim C9: stored WorktreeInfo records are frozen and no read operation
mutates the registry: list_sandboxes, get_sandbox and
find_sandbox_by_session_api_key return the state unchanged; the status is
never stored in a record but recomputed from the OS liveness oracle on every
query, so the same unchanged registry reports RUNNING or STOPPED purely
according to the current liveness of the recorded pid. -/
theorem registry_records_immutable_status_observed :
    (∀ (check : Nat → ProcCheck) (st : SvcState), (listSandboxes check st).2 = st) ∧
    (∀ (check : Nat → ProcCheck) (sid : String) (st : SvcState),
      (getSandbox check sid st).2 = st) ∧
    (∀ (check : Nat → ProcCheck) (key : String) (st : SvcState),
      (findBySessionKey check key st).2 = st) ∧
    (∀ (check : Nat → ProcCheck) (sid : String) (st : SvcState),
      (getSandbox check sid st).1 =
        (lookupId sid st.worktrees).map (fun info => sandboxInfoOf check sid info)) ∧
    ((getSandbox (fun _ => ProcCheck.alive) sidB demoSt).1 =
        some (sandboxInfoOf (fun _ => ProcCheck.alive) sidB demoInfo) ∧
      (sandboxInfoOf (fun _ => ProcCheck.alive) sidB demoInfo).status = SandboxStatus.running ∧
      (getSandbox (fun _ => ProcCheck.dead) sidB demoSt).1 =
        some (sandboxInfoOf (fun _ => ProcCheck.dead) sidB demoInfo) ∧
      (sandboxInfoOf (fun _ => ProcCheck.dead) sidB demoInfo).status = SandboxStatus.stopped) := by
  have hget2 : ∀ (check : Nat → ProcCheck) (sid : String) (st : SvcState),
      (getSandbox check sid st).2 = st := by
    intro check sid st
    unfold getSandbox
    cases lookupId sid st.worktrees <;> rfl
  refine ⟨fun _ _ => rfl, hget2, ?_, ?_, rfl, rfl, rfl, rfl⟩
  · intro check key st
    unfold findBySessionKey
    rcases findKeyIn key st.worktrees with _ | sid
    · rfl
    · exact hget2 check sid st
  · intro check sid st
    unfold getSandbox
    cases lookupId sid st.worktrees <;> rfl

/-- Claim C6: delete_sandbox always returns True, removes the registry entry
of the given id along with its workspace directory and its process, is a
no-op returning True on an id absent from the registry, and is idempotent:
a second call on the same id returns True and changes nothing further. -/
theorem delete_sandbox_idempotent :
    (∀ (sid : String) (st : SvcState), (delete_sandbox sid st).1 = true) ∧
    (∀ (sid : String) (st : SvcState),
      lookupId sid ((delete_sandbox sid st).2).worktrees = none) ∧
    (∀ (sid : String) (st : SvcState),
      delete_sandbox sid (delete_sandbox sid st).2 = (true, (delete_sandbox sid st).2)) ∧
    (∀ (sid : String) (st : SvcState) (info : WorktreeInfo),
      lookupId sid st.worktrees = some info →
      info.worktree_path ∉ ((delete_sandbox sid st).2).dirs ∧
        info.pid ∉ ((delete_sandbox sid st).2).alive) ∧
    (∀ (sid : String) (st : SvcState), lookupId sid st.worktrees = none →
      delete_sandbox sid st = (true, st)) := by
  have h1 : ∀ (sid : String) (st : SvcState), (delete_sandbox sid st).1 = true := by
    intro sid st
    unfold delete_sandbox
    cases lookupId sid st.worktrees <;> rfl
  have h5 : ∀ (sid : String) (st : SvcState), lookupId sid st.worktrees = none →
      delete_sandbox sid st = (true, st) := by
    intro sid st h
    unfold delete_sandbox
    rw [h]
  have h2 : ∀ (sid : String) (st : SvcState),
      lookupId sid ((delete_sandbox sid st).2).worktrees = none := by
    intro sid st
    unfold delete_sandbox
    rcases h : lookupId sid st.worktrees with _ | info
    · exact h
    · exact lookupId_eraseId sid st.worktrees
  refine ⟨h1, h2, ?_, ?_, h5⟩
  · intro sid st
    exact h5 sid (delete_sandbox sid st).2 (h2 sid st)
  · intro sid st info h
    unfold delete_sandbox
    rw [h]
    exact ⟨not_mem_removeEvery_self _ _, not_mem_removeEvery_self _ _⟩

/-- Witness for delete_sandbox_idempotent: deleting the registered sandbox
removes its directory and kills its process, and deleting an unknown id is a
no-op returning True. -/
theorem delete_sandbox_idempotent_witness :
    (demoInfo.worktree_path ∉ ((delete_sandbox sidB demoSt).2).dirs ∧
      demoInfo.pid ∉ ((delete_sandbox sidB demoSt).2).alive) ∧
    delete_sandbox sidZ demoSt = (true, demoSt) :=
  ⟨delete_sandbox_idempotent.2.2.2.1 sidB demoSt demoInfo rfl,
    delete_sandbox_idempotent.2.2.2.2 sidZ demoSt rfl⟩

/-- Counterexample to claim C1: a start_sandbox call whose process launch
fails (after the sandbox spec was found, a port was allocated and the
workspace directory was created) surfaces the error while the created
workspace directory remains on disk - the failure path does not unwind the
directory-creation step. -/
theorem start_sandbox_launch_failure_leaks_dir :
    start_sandbox (fun _ => ProcCheck.alive) (fun _ => true) (fun _ => none) true false
        demoBase 8000 77 sidA specA keyA none 0 emptySvc =
      (Except.error SvcError.processFailed,
        { worktrees := [], dirs := [pathA], alive := [] }) ∧
    pathA ∈ (start_sandbox (fun _ => ProcCheck.alive) (fun _ => true) (fun _ => none) true false
        demoBase 8000 77 sidA specA keyA none 0 emptySvc).2.dirs :=
  ⟨rfl, List.mem_cons_self pathA []⟩

/-- The stale check of _create_worktree is the identity when
self.worktree_path is None. -/
theorem dirsAfterStaleCheck_none (p : String) (dirs : List String) :
    dirsAfterStaleCheck none p dirs = dirs := by
  unfold dirsAfterStaleCheck removeWorktreePath
  split <;> rfl

/-- On a fresh instance whose target path is not occupied, _create_worktree
reduces to the three git outcomes. -/
theorem createWorktree_fresh (gitOk configOk : Bool) (base name : String)
    (dirs : List String) (hdir : wtPathOf base name ∉ dirs) :
    createWorktree gitOk configOk none base name dirs =
      if gitOk = false then (.error .provisioning, dirs)
      else if configOk = false then (.error .provisioning, wtPathOf base name :: dirs)
      else (.ok (wtPathOf base name), wtPathOf base name :: dirs) := by
  unfold createWorktree
  rw [dirsAfterStaleCheck_none, if_neg hdir]

/-- Evaluation of connect on a fresh instance whose target path is free,
over all flag combinations. -/
theorem connect_eval (gitOk configOk launchOk : Bool) (poll : Nat → Option Int)
    (probe : Nat → Probe) (base name : String) (pid : Nat) (dirs : List String)
    (alive : List Nat) (hdir : wtPathOf base name ∉ dirs) :
    connect gitOk configOk launchOk poll probe base name pid ⟨none, none, dirs, alive⟩ =
      if gitOk = false then
        (.error .provisioning, ⟨none, none, dirs, alive⟩)
      else if configOk = false then
        (.error .provisioning, ⟨none, none, wtPathOf base name :: dirs, alive⟩)
      else if launchOk = false then
        (.error .launch,
          ⟨some (wtPathOf base name), none,
            removeEvery (wtPathOf base name) (wtPathOf base name :: dirs), alive⟩)
      else
        match (waitUntilAlive true poll probe).1 with
        | .ok _ =>
          (.ok (), ⟨some (wtPathOf base name), some pid,
            wtPathOf base name :: dirs, pid :: alive⟩)
        | .error e =>
          (.error e,
            ⟨some (wtPathOf base name), none,
              removeEvery (wtPathOf base name) (wtPathOf base name :: dirs),
              removeEvery pid (pid :: alive)⟩) := by
  rw [connect, createWorktree_fresh gitOk configOk base name dirs hdir]
  cases gitOk
  · simp [stopServer, removeWorktreeRt]
  · cases configOk
    · simp [stopServer, removeWorktreeRt]
    · cases launchOk
      · simp [stopServer, removeWorktreeRt]
      · rcases hw : (waitUntilAlive true poll probe).1 with e | u
        · simp [hw, startedRt, stopServer, removeWorktreeRt]
        · simp [hw, startedRt, stopServer, removeWorktreeRt]

/-- Claim C1 as amended: WorktreeRuntime.connect on a fresh instance unwinds
fully on every modelled failure (git failure before the directory exists,
launch failure, readiness failure) - no started process and no created
directory survive; the one exception is a provisioning failure after git
worktree add succeeded (the worktree-config step), which leaves the created
directory because _remove_worktree consults the still-unassigned
self.worktree_path.  WorktreeSandboxService.start_sandbox never leaves a
live process on any failure, and a readiness failure removes the directory,
the registry entry and the process; but a launch failure surfaces the error
with the created workspace directory left on disk. -/
theorem create_failure_cleanup_amended :
    (∀ (gitOk launchOk : Bool) (poll : Nat → Option Int) (probe : Nat → Probe)
        (base name : String) (pid : Nat) (dirs : List String) (alive : List Nat)
        (e : RtError),
      wtPathOf base name ∉ dirs → pid ∉ alive →
      (connect gitOk true launchOk poll probe base name pid ⟨none, none, dirs, alive⟩).1 =
          Except.error e →
      wtPathOf base name ∉
          (connect gitOk true launchOk poll probe base name pid ⟨none, none, dirs, alive⟩).2.dirs ∧
        pid ∉ (connect gitOk true launchOk poll probe base name pid
          ⟨none, none, dirs, alive⟩).2.alive) ∧
    (∀ (launchOk : Bool) (poll : Nat → Option Int) (probe : Nat → Probe)
        (base name : String) (pid : Nat) (dirs : List String) (alive : List Nat),
      wtPathOf base name ∉ dirs →
      (connect true false launchOk poll probe base name pid ⟨none, none, dirs, alive⟩).1 =
          Except.error RtError.provisioning ∧
        wtPathOf base name ∈
          (connect true false launchOk poll probe base name pid
            ⟨none, none, dirs, alive⟩).2.dirs) ∧
    (∀ (check : Nat → ProcCheck) (free : Nat → Bool) (probe : Nat → Option Nat)
        (specFound launchOk : Bool) (baseDir : String) (basePort newPid : Nat)
        (sid specId key : String) (uid : Option String) (now : Nat) (st : SvcState)
        (e : SvcError),
      newPid ∉ st.alive →
      (start_sandbox check free probe specFound launchOk baseDir basePort newPid
          sid specId key uid now st).1 = Except.error e →
      newPid ∉ (start_sandbox check free probe specFound launchOk baseDir basePort newPid
          sid specId key uid now st).2.alive) ∧
    (∀ (check : Nat → ProcCheck) (free : Nat → Bool) (probe : Nat → Option Nat)
        (baseDir : String) (basePort newPid port : Nat) (sid specId key : String)
        (uid : Option String) (now : Nat) (st : SvcState),
      findUnusedPort free basePort = .ok port →
      (waitForServerReady probe).1 = false →
      (start_sandbox check free probe true true baseDir basePort newPid
          sid specId key uid now st).1 = Except.error SvcError.startupFailed ∧
        lookupId sid (start_sandbox check free probe true true baseDir basePort newPid
          sid specId key uid now st).2.worktrees = none ∧
        dirFor baseDir sid ∉ (start_sandbox check free probe true true baseDir basePort newPid
          sid specId key uid now st).2.dirs ∧
        newPid ∉ (start_sandbox check free probe true true baseDir basePort newPid
          sid specId key uid now st).2.alive) ∧
    (∀ (check : Nat → ProcCheck) (free : Nat → Bool) (probe : Nat → Option Nat)
        (baseDir : String) (basePort newPid port : Nat) (sid specId key : String)
        (uid : Option String) (now : Nat) (st : SvcState),
      findUnusedPort free basePort = .ok port →
      (start_sandbox check free probe true false baseDir basePort newPid
          sid specId key uid now st).1 = Except.error SvcError.processFailed ∧
        dirFor baseDir sid ∈ (start_sandbox check free probe true false baseDir basePort newPid
          sid specId key uid now st).2.dirs) := by
  refine ⟨?_, ?_, ?_, ?_, ?_⟩
  · -- connect: full unwind when the worktree-config step succeeds
    intro gitOk launchOk poll probe base name pid dirs alive e hdir halive herr
    rw [connect_eval gitOk true launchOk poll probe base name pid dirs alive hdir]
      at herr ⊢
    cases gitOk
    · exact ⟨hdir, halive⟩
    · cases launchOk
      · exact ⟨not_mem_removeEvery_self _ _, halive⟩
      · rcases hw : (waitUntilAlive true poll probe).1 with e2 | u
        · exact ⟨not_mem_removeEvery_self _ _, not_mem_removeEvery_self _ _⟩
        · rw [hw] at herr
          simp at herr
  · -- connect: the worktree-config failure leaves the created directory
    intro launchOk poll probe base name pid dirs alive hdir
    rw [connect_eval true false launchOk poll probe base name pid dirs alive hdir]
    exact ⟨rfl, List.mem_cons_self _ _⟩
  · -- start_sandbox: no failure leaves a live process
    intro check free probe specFound launchOk baseDir basePort newPid sid specId key uid
      now st e halive herr
    unfold start_sandbox at herr ⊢
    cases specFound
    · exact halive
    · rcases hfp : findUnusedPort free basePort with e2 | port
      · exact halive
      · rw [hfp] at herr
        cases launchOk
        · exact halive
        · rcases hr : (waitForServerReady probe).1 with _ | _
          · have hlook : lookupId sid (startedState baseDir sid specId key uid now newPid
                port st).worktrees = some (mkInfo baseDir sid specId key uid now newPid port) :=
              lookupId_insertId sid _ st.worktrees
            show newPid ∉ (delete_sandbox sid
              (startedState baseDir sid specId key uid now newPid port st)).2.alive
            unfold delete_sandbox
            rw [hlook]
            exact not_mem_removeEvery_self _ _
          · rw [hr] at herr
            simp at herr
  · -- start_sandbox: readiness failure cleans up fully
    intro check free probe baseDir basePort newPid port sid specId key uid now st hfp hr
    unfold start_sandbox
    simp only [hfp, hr]
    have hlook : lookupId sid (startedState baseDir sid specId key uid now newPid
        port st).worktrees = some (mkInfo baseDir sid specId key uid now newPid port) :=
      lookupId_insertId sid _ st.worktrees
    unfold delete_sandbox
    rw [hlook]
    exact ⟨rfl, lookupId_eraseId sid _, not_mem_removeEvery_self _ _,
      not_mem_removeEvery_self _ _⟩
  · -- start_sandbox: launch failure leaks the created directory
    intro check free probe baseDir basePort newPid port sid specId key uid now st hfp
    unfold start_sandbox
    simp only [hfp]
    exact ⟨rfl, mem_addPath _ _⟩

/-- Witness for create_failure_cleanup_amended: concrete instances of each
conjunct - a git failure and a readiness failure during connect leave
nothing behind, a spec-lookup failure of start_sandbox leaves no process,
a readiness failure of start_sandbox cleans up fully, and a launch failure
of start_sandbox leaves the created directory. -/
theorem create_failure_cleanup_amended_witness :
    (wtPathOf demoBase demoNameA ∉
        (connect false true true (fun _ => none) (fun _ => Probe.ok2xx)
          demoBase demoNameA 7 ⟨none, none, [], []⟩).2.dirs ∧
      7 ∉ (connect false true true (fun _ => none) (fun _ => Probe.ok2xx)
          demoBase demoNameA 7 ⟨none, none, [], []⟩).2.alive) ∧
    (wtPathOf demoBase demoNameA ∉
        (connect true true true (fun _ => none) (fun _ => Probe.statusNon2xx)
          demoBase demoNameA 7 ⟨none, none, [], []⟩).2.dirs ∧
      7 ∉ (connect true true true (fun _ => none) (fun _ => Probe.statusNon2xx)
          demoBase demoNameA 7 ⟨none, none, [], []⟩).2.alive) ∧
    ((connect true false true (fun _ => none) (fun _ => Probe.ok2xx)
          demoBase demoNameA 7 ⟨none, none, [], []⟩).1 = Except.error RtError.provisioning ∧
      wtPathOf demoBase demoNameA ∈
        (connect true false true (fun _ => none) (fun _ => Probe.ok2xx)
          demoBase demoNameA 7 ⟨none, none, [], []⟩).2.dirs) ∧
    (77 ∉ (start_sandbox (fun _ => ProcCheck.alive) (fun _ => true) (fun _ => none)
        false true demoBase 8000 77 sidA specA keyA none 0 demoSt).2.alive) ∧
    ((start_sandbox (fun _ => ProcCheck.alive) (fun _ => true) (fun _ => none)
          true true demoBase 8000 77 sidA specA keyA none 0 demoSt).1 =
        Except.error SvcError.startupFailed ∧
      lookupId sidA (start_sandbox (fun _ => ProcCheck.alive) (fun _ => true) (fun _ => none)
          true true demoBase 8000 77 sidA specA keyA none 0 demoSt).2.worktrees = none ∧
      dirFor demoBase sidA ∉ (start_sandbox (fun _ => ProcCheck.alive) (fun _ => true)
          (fun _ => none) true true demoBase 8000 77 sidA specA keyA none 0 demoSt).2.dirs ∧
      77 ∉ (start_sandbox (fun _ => ProcCheck.alive) (fun _ => true) (fun _ => none)
          true true demoBase 8000 77 sidA specA keyA none 0 demoSt).2.alive) ∧
    ((start_sandbox (fun _ => ProcCheck.alive) (fun _ => true) (fun _ => none)
          true false demoBase 8000 77 sidA specA keyA none 0 demoSt).1 =
        Except.error SvcError.processFailed ∧
      dirFor demoBase sidA ∈ (start_sandbox (fun _ => ProcCheck.alive) (fun _ => true)
          (fun _ => none) true false demoBase 8000 77 sidA specA keyA none 0 demoSt).2.dirs) :=
  ⟨create_failure_cleanup_amended.1 false true (fun _ => none) (fun _ => Probe.ok2xx)
      demoBase demoNameA 7 [] [] RtError.provisioning (List.not_mem_nil _)
      (List.not_mem_nil _) rfl,
    create_failure_cleanup_amended.1 true true (fun _ => none) (fun _ => Probe.statusNon2xx)
      demoBase demoNameA 7 [] [] RtError.statusErr (List.not_mem_nil _)
      (List.not_mem_nil _) rfl,
    create_failure_cleanup_amended.2.1 true (fun _ => none) (fun _ => Probe.ok2xx)
      demoBase demoNameA 7 [] [] (List.not_mem_nil _),
    create_failure_cleanup_amended.2.2.1 (fun _ => ProcCheck.alive) (fun _ => true)
      (fun _ => none) false true demoBase 8000 77 sidA specA keyA none 0 demoSt
      SvcError.specNotFound (by decide) rfl,
    create_failure_cleanup_amended.2.2.2.1 (fun _ => ProcCheck.alive) (fun _ => true)
      (fun _ => none) demoBase 8000 77 8000 sidA specA keyA none 0 demoSt rfl rfl,
    create_failure_cleanup_amended.2.2.2.2 (fun _ => ProcCheck.alive) (fun _ => true)
      (fun _ => none) demoBase 8000 77 8000 sidA specA keyA none 0 demoSt rfl⟩

end Worktree
